import Mathlib

/-!
Verification of `internal/provider/resource_gitlab_instance_variable.go`.

The Go file defines a Terraform resource with four handlers (create, read,
update, delete) that call the remote GitLab instance-variable API and copy
fields between the remote object and the local Terraform state.  The remote
client calls are modelled as oracle functions supplied as parameters; the
local `*schema.ResourceData` is modelled as an explicit record that each
handler transforms.
-/

/-- A GitLab instance-level CI/CD variable as the remote API returns it
(the fields of the go-gitlab `InstanceVariable` struct that the resource
reads: Key, Value, VariableType, Protected, Masked). -/
structure InstanceVariable where
  key : String
  value : String
  variable_type : String
  protected_ : Bool
  masked : Bool
deriving Repr, DecidableEq

/-- The local Terraform state (`*schema.ResourceData`): the identity slot
(`d.Id()` / `d.SetId`) plus the five schema fields.  The three fields that
carry a schema default are `Option`: `none` models a configuration that
omits the field, and the getter applies the default, as the SDK `d.Get`
does. -/
structure ResourceData where
  id : String
  key : String
  value : String
  variable_type : Option String
  protected_ : Option Bool
  masked : Option Bool
deriving Repr, DecidableEq

/-- `d.Get("key").(string)` — required field, always set. -/
def ResourceData.getKey (d : ResourceData) : String := d.key

/-- `d.Get("value").(string)` — required field, always set. -/
def ResourceData.getValue (d : ResourceData) : String := d.value

/-- `d.Get("variable_type").(string)` — schema default `"env_var"`. -/
def ResourceData.getVariableType (d : ResourceData) : String :=
  d.variable_type.getD "env_var"

/-- `d.Get("protected").(bool)` — schema default `false`. -/
def ResourceData.getProtected (d : ResourceData) : Bool :=
  d.protected_.getD false

/-- `d.Get("masked").(bool)` — schema default `false`. -/
def ResourceData.getMasked (d : ResourceData) : Bool :=
  d.masked.getD false

/-- The declared type of a schema field. -/
inductive SchemaType where
  | tString
  | tBool
deriving Repr, DecidableEq

/-- The declared default of a schema field. -/
inductive SchemaDefault where
  | noDefault
  | dString (s : String)
  | dBool (b : Bool)
deriving Repr, DecidableEq

/-- The flags of one entry of the `Schema` map that matter here. -/
structure SchemaField where
  typ : SchemaType
  required : Bool
  optional : Bool
  forceNew : Bool
  sensitive : Bool
  dflt : SchemaDefault
deriving Repr, DecidableEq

/-- The `Schema` map of the resource, transcribed from the Go literal:
key (string, Required, ForceNew), value (string, Required, Sensitive),
variable_type (string, Optional, Default "env_var"), protected (bool,
Optional, Default false), masked (bool, Optional, Default false). -/
def gitlabInstanceVariableSchema : List (String × SchemaField) :=
  [ ("key", ⟨SchemaType.tString, true, false, true, false, SchemaDefault.noDefault⟩),
    ("value", ⟨SchemaType.tString, true, false, false, true, SchemaDefault.noDefault⟩),
    ("variable_type", ⟨SchemaType.tString, false, true, false, false, SchemaDefault.dString "env_var"⟩),
    ("protected", ⟨SchemaType.tBool, false, true, false, false, SchemaDefault.dBool false⟩),
    ("masked", ⟨SchemaType.tBool, false, true, false, false, SchemaDefault.dBool false⟩) ]

/-- An HTTP response as the error branch of Read sees it: only the status
code is consulted (`resp.StatusCode`). -/
structure Response where
  statusCode : Nat
deriving Repr, DecidableEq

/-- Result of `client.InstanceVariables.GetVariable`: on success the fetched
object; on error the Go error together with the `*gitlab.Response`, which a
failed transport may leave absent (`nil`), modelled as `Option`. -/
inductive GetResult where
  | ok (v : InstanceVariable)
  | err (e : String) (resp : Option Response)
deriving Repr, DecidableEq

/-- Result of `client.InstanceVariables.CreateVariable`; the handler only
inspects the error (`_, _, err := ...`). -/
inductive CreateResult where
  | ok
  | err (e : String)
deriving Repr, DecidableEq

/-- Result of `client.InstanceVariables.UpdateVariable`; the handler only
inspects the error. -/
inductive UpdateResult where
  | ok
  | err (e : String)
deriving Repr, DecidableEq

/-- Result of `client.InstanceVariables.RemoveVariable`; the handler only
inspects the error. -/
inductive RemoveResult where
  | ok
  | err (e : String)
deriving Repr, DecidableEq

/-- `diag.Diagnostics` returned by a handler: `nil` (success) or the
diagnostic produced by the augmentation helper. -/
inductive Diagnostics where
  | nil
  | clientError (e : String)
deriving Repr, DecidableEq

/-- Modelled from the spec: `augmentVariableClientError` lives elsewhere in
the repository (not under src/); per the spec it passes the client error
through an augmentation helper and surfaces it as a diagnostic. -/
def augmentVariableClientError (_d : ResourceData) (e : String) : Diagnostics :=
  Diagnostics.clientError e

/-- Modelled from the spec: `stringToVariableType` lives elsewhere in the
repository (not under src/); it converts the schema string to the go-gitlab
enum value of the same name, so on the validated values `env_var` and
`file` it is the identity on that name. -/
def stringToVariableType (s : String) : String := s

/-- The `gitlab.CreateInstanceVariableOptions` payload the create handler
builds: all five fields. -/
structure CreateInstanceVariableOptions where
  key : String
  value : String
  variable_type : String
  protected_ : Bool
  masked : Bool
deriving Repr, DecidableEq

/-- The `gitlab.UpdateInstanceVariableOptions` payload the update handler
builds: value, variable_type, protected, masked — no key field. -/
structure UpdateInstanceVariableOptions where
  value : String
  variable_type : String
  protected_ : Bool
  masked : Bool
deriving Repr, DecidableEq

/-- The payload built by `resourceGitlabInstanceVariableCreate` from the
five `d.Get` reads. -/
def createOptionsOf (d : ResourceData) : CreateInstanceVariableOptions :=
  { key := d.getKey
    value := d.getValue
    variable_type := stringToVariableType d.getVariableType
    protected_ := d.getProtected
    masked := d.getMasked }

/-- The payload built by `resourceGitlabInstanceVariableUpdate` from the
four `d.Get` reads other than key. -/
def updateOptionsOf (d : ResourceData) : UpdateInstanceVariableOptions :=
  { value := d.getValue
    variable_type := stringToVariableType d.getVariableType
    protected_ := d.getProtected
    masked := d.getMasked }

/-- `resourceGitlabInstanceVariableRead`.  Fetches by `d.Id()`.  On error it
dereferences `resp.StatusCode` with no nil check — an absent response is a
nil-pointer dereference, modelled as `none`; status 404 clears the identity
and returns nil diagnostics; any other status returns the augmented error.
On success it writes the five fetched fields into the state. -/
def resourceGitlabInstanceVariableRead (get : String → GetResult)
    (d : ResourceData) : Option (ResourceData × Diagnostics) :=
  match get d.id with
  | GetResult.err e resp =>
    match resp with
    | none => none
    | some r =>
      if r.statusCode = 404 then
        some ({ d with id := "" }, Diagnostics.nil)
      else
        some (d, augmentVariableClientError d e)
  | GetResult.ok v =>
    some ({ d with
            key := v.key
            value := v.value
            variable_type := some v.variable_type
            protected_ := some v.protected_
            masked := some v.masked }, Diagnostics.nil)

/-- `resourceGitlabInstanceVariableCreate`.  Builds the options from the
five fields, calls the remote create; on error returns the augmented
diagnostic with the state untouched; on success sets the identity to the
key field and delegates to Read. -/
def resourceGitlabInstanceVariableCreate
    (create : CreateInstanceVariableOptions → CreateResult)
    (get : String → GetResult) (d : ResourceData) :
    Option (ResourceData × Diagnostics) :=
  match create (createOptionsOf d) with
  | CreateResult.err e => some (d, augmentVariableClientError d e)
  | CreateResult.ok =>
    resourceGitlabInstanceVariableRead get { d with id := d.getKey }

/-- `resourceGitlabInstanceVariableUpdate`.  Calls the remote update keyed
by the key field with the four-field payload; on error returns the
augmented diagnostic; on success delegates to Read. -/
def resourceGitlabInstanceVariableUpdate
    (update : String → UpdateInstanceVariableOptions → UpdateResult)
    (get : String → GetResult) (d : ResourceData) :
    Option (ResourceData × Diagnostics) :=
  match update d.getKey (updateOptionsOf d) with
  | UpdateResult.err e => some (d, augmentVariableClientError d e)
  | UpdateResult.ok => resourceGitlabInstanceVariableRead get d

/-- `resourceGitlabInstanceVariableDelete`.  Calls the remote removal keyed
by the key field; on error returns the augmented diagnostic; on success
returns nil diagnostics.  The local state is not modified. -/
def resourceGitlabInstanceVariableDelete (remove : String → RemoveResult)
    (d : ResourceData) : Diagnostics :=
  match remove d.getKey with
  | RemoveResult.err e => augmentVariableClientError d e
  | RemoveResult.ok => Diagnostics.nil

/-- Modelled from the spec: the `Importer` uses the SDK passthrough
(`schema.ImportStatePassthroughContext`, framework code outside src/),
which per the spec uses the externally supplied identifier string directly
as the local identity. -/
def importStatePassthrough (importId : String) (d : ResourceData) :
    ResourceData :=
  { d with id := importId }

/-- A faithful remote store: a finite map from variable name to variable. -/
def serverGet (store : String → Option InstanceVariable) (k : String) :
    GetResult :=
  match store k with
  | some v => GetResult.ok v
  | none => GetResult.err "404 Variable Not Found" (some ⟨404⟩)

/-- A faithful remote create: stores the payload under its key. -/
def applyCreate (store : String → Option InstanceVariable)
    (o : CreateInstanceVariableOptions) : String → Option InstanceVariable :=
  fun k =>
    if k = o.key then
      some ⟨o.key, o.value, o.variable_type, o.protected_, o.masked⟩
    else store k

/-- A faithful remote update: rewrites value, variable_type, protected and
masked of the object stored under `k`, leaving its key untouched. -/
def applyUpdate (store : String → Option InstanceVariable) (k : String)
    (o : UpdateInstanceVariableOptions) : String → Option InstanceVariable :=
  fun k2 =>
    if k2 = k then
      (store k).map (fun v =>
        { v with
          value := o.value
          variable_type := o.variable_type
          protected_ := o.protected_
          masked := o.masked })
    else store k2

/-- A get oracle is well-keyed when every object it returns for a lookup
key carries that key — the remote keys objects by their name. -/
def getWellKeyed (get : String → GetResult) : Prop :=
  ∀ k v, get k = GetResult.ok v → v.key = k

/-- Claim C1: if the remote get errors with HTTP status 404, Read clears
the local identity to the empty string, leaves the five local fields
untouched, and returns success with nil diagnostics. -/
theorem read_notFound_clears_id_keeps_fields (get : String → GetResult)
    (d : ResourceData) (e : String)
    (h : get d.id = GetResult.err e (some ⟨404⟩)) :
    ∃ d', resourceGitlabInstanceVariableRead get d = some (d', Diagnostics.nil)
      ∧ d'.id = "" ∧ d'.key = d.key ∧ d'.value = d.value
      ∧ d'.variable_type = d.variable_type
      ∧ d'.protected_ = d.protected_ ∧ d'.masked = d.masked := by
  refine ⟨{ d with id := "" }, ?_, rfl, rfl, rfl, rfl, rfl, rfl⟩
  simp [resourceGitlabInstanceVariableRead, h]

/-- Witness for C1 at a concrete oracle and state. -/
theorem read_notFound_clears_id_keeps_fields_witness :
    (fun _ : String => GetResult.err "boom" (some ⟨404⟩))
        (ResourceData.id ⟨"K", "K", "v", some "env_var", some true, some false⟩)
      = GetResult.err "boom" (some ⟨404⟩)
    ∧ ∃ d', resourceGitlabInstanceVariableRead
          (fun _ => GetResult.err "boom" (some ⟨404⟩))
          ⟨"K", "K", "v", some "env_var", some true, some false⟩
        = some (d', Diagnostics.nil)
      ∧ d'.id = "" ∧ d'.key = "K" ∧ d'.value = "v"
      ∧ d'.variable_type = some "env_var"
      ∧ d'.protected_ = some true ∧ d'.masked = some false :=
  ⟨rfl, read_notFound_clears_id_keeps_fields
    (fun _ => GetResult.err "boom" (some ⟨404⟩))
    ⟨"K", "K", "v", some "env_var", some true, some false⟩ "boom" rfl⟩

/-- Claim C2: if the remote create errors, Create returns the augmented
client-error diagnostic with the local state (identity included) unchanged;
if it succeeds, Create sets the local identity to the key field and returns
the result of a Read against that state. -/
theorem create_err_diag_ok_sets_id_then_read
    (create : CreateInstanceVariableOptions → CreateResult)
    (get : String → GetResult) (d : ResourceData) :
    (∀ e, create (createOptionsOf d) = CreateResult.err e →
      resourceGitlabInstanceVariableCreate create get d
        = some (d, augmentVariableClientError d e)
      ∧ augmentVariableClientError d e ≠ Diagnostics.nil)
    ∧ (create (createOptionsOf d) = CreateResult.ok →
      resourceGitlabInstanceVariableCreate create get d
        = resourceGitlabInstanceVariableRead get { d with id := d.getKey }) := by
  constructor
  · intro e he
    refine ⟨?_, by simp [augmentVariableClientError]⟩
    simp [resourceGitlabInstanceVariableCreate, he]
  · intro hok
    simp [resourceGitlabInstanceVariableCreate, hok]

/-- Witness for C2 at a concrete failing create oracle. -/
theorem create_err_diag_ok_sets_id_then_read_witness :
    (fun _ : CreateInstanceVariableOptions => CreateResult.err "denied")
        (createOptionsOf ⟨"", "K", "v", none, none, none⟩)
      = CreateResult.err "denied"
    ∧ resourceGitlabInstanceVariableCreate
        (fun _ => CreateResult.err "denied")
        (fun _ => GetResult.err "unused" none)
        ⟨"", "K", "v", none, none, none⟩
      = some (⟨"", "K", "v", none, none, none⟩,
              augmentVariableClientError ⟨"", "K", "v", none, none, none⟩ "denied") :=
  ⟨rfl,
    ((create_err_diag_ok_sets_id_then_read
      (fun _ => CreateResult.err "denied")
      (fun _ => GetResult.err "unused" none)
      ⟨"", "K", "v", none, none, none⟩).1 "denied" rfl).1⟩

/-- Claim C3: the update payload is exactly value, variable_type, protected
and masked read from the state (the payload type has no key field); a
faithful remote update never alters the stored key; and the schema marks
key ForceNew, so a key change forces replacement. -/
theorem update_payload_excludes_key_key_immutable (d : ResourceData)
    (store : String → Option InstanceVariable) (k k2 : String)
    (o : UpdateInstanceVariableOptions) :
    updateOptionsOf d
      = { value := d.getValue
          variable_type := stringToVariableType d.getVariableType
          protected_ := d.getProtected
          masked := d.getMasked }
    ∧ (applyUpdate store k o k2).map InstanceVariable.key
        = (store k2).map InstanceVariable.key
    ∧ (gitlabInstanceVariableSchema.lookup "key").map SchemaField.forceNew
        = some true := by
  refine ⟨rfl, ?_, rfl⟩
  by_cases hk : k2 = k
  · subst hk
    cases hs : store k2 <;> simp [applyUpdate, hs]
  · simp [applyUpdate, hk]

/-- Claim C4: creating a variable from the five fields of a state against a
faithful remote and reading it back yields a state whose five fields are
identical to the ones supplied. -/
theorem create_then_read_roundtrip
    (store : String → Option InstanceVariable) (d : ResourceData) :
    ∃ d', resourceGitlabInstanceVariableCreate (fun _ => CreateResult.ok)
        (serverGet (applyCreate store (createOptionsOf d))) d
        = some (d', Diagnostics.nil)
      ∧ d'.getKey = d.getKey ∧ d'.getValue = d.getValue
      ∧ d'.getVariableType = d.getVariableType
      ∧ d'.getProtected = d.getProtected ∧ d'.getMasked = d.getMasked := by
  refine ⟨{ id := d.getKey, key := d.getKey, value := d.getValue
            variable_type := some (stringToVariableType d.getVariableType)
            protected_ := some d.getProtected, masked := some d.getMasked },
          ?_, rfl, rfl, ?_, ?_, ?_⟩
  · simp [resourceGitlabInstanceVariableCreate, resourceGitlabInstanceVariableRead,
      serverGet, applyCreate, createOptionsOf, stringToVariableType,
      ResourceData.getKey, ResourceData.getValue, ResourceData.getVariableType,
      ResourceData.getProtected, ResourceData.getMasked]
  · simp [stringToVariableType, ResourceData.getVariableType]
  · simp [ResourceData.getProtected]
  · simp [ResourceData.getMasked]

/-- Counterexample to claim C5 as stated: with local identity "A" and key
field "B", a removal oracle that succeeds on the identifier "A" still makes
Delete return a non-nil diagnostic, because the code keys the removal call
by the key field "B", not by the identifier. -/
theorem delete_keyed_by_identifier_counterexample :
    (fun k => if k = "B" then RemoveResult.err "boom" else RemoveResult.ok) "A"
      = RemoveResult.ok
    ∧ resourceGitlabInstanceVariableDelete
        (fun k => if k = "B" then RemoveResult.err "boom" else RemoveResult.ok)
        ⟨"A", "B", "v", none, none, none⟩
      ≠ Diagnostics.nil := by
  constructor
  · decide
  · decide

/-- Claim C5 (amended): the remote removal call is keyed by the local key
field; if that call errors, Delete returns the augmented diagnostic, and if
it succeeds, Delete returns nil diagnostics.  The first conjunct shows the
result depends on the removal oracle only at the key field. -/
theorem delete_keyed_by_key_field
    (remove remove2 : String → RemoveResult) (d : ResourceData) :
    (remove d.getKey = remove2 d.getKey →
      resourceGitlabInstanceVariableDelete remove d
        = resourceGitlabInstanceVariableDelete remove2 d)
    ∧ (∀ e, remove d.getKey = RemoveResult.err e →
      resourceGitlabInstanceVariableDelete remove d
        = augmentVariableClientError d e
      ∧ augmentVariableClientError d e ≠ Diagnostics.nil)
    ∧ (remove d.getKey = RemoveResult.ok →
      resourceGitlabInstanceVariableDelete remove d = Diagnostics.nil) := by
  refine ⟨?_, ?_, ?_⟩
  · intro h
    simp [resourceGitlabInstanceVariableDelete, h]
  · intro e he
    exact ⟨by simp [resourceGitlabInstanceVariableDelete, he],
           by simp [augmentVariableClientError]⟩
  · intro hok
    simp [resourceGitlabInstanceVariableDelete, hok]

/-- Witness for the amended C5 at a concrete erroring removal oracle. -/
theorem delete_keyed_by_key_field_witness :
    (fun _ : String => RemoveResult.err "boom")
        (ResourceData.getKey ⟨"K", "K", "v", none, none, none⟩)
      = RemoveResult.err "boom"
    ∧ resourceGitlabInstanceVariableDelete (fun _ => RemoveResult.err "boom")
        ⟨"K", "K", "v", none, none, none⟩
      = augmentVariableClientError ⟨"K", "K", "v", none, none, none⟩ "boom" :=
  ⟨rfl,
    (((delete_keyed_by_key_field (fun _ => RemoveResult.err "boom")
      (fun _ => RemoveResult.err "boom")
      ⟨"K", "K", "v", none, none, none⟩).2.1) "boom" rfl).1⟩

/-- Claim C6: if the remote get succeeds, Read overwrites all five local
fields with the fields of the fetched object and returns nil
diagnostics. -/
theorem read_success_overwrites_fields (get : String → GetResult)
    (d : ResourceData) (v : InstanceVariable)
    (h : get d.id = GetResult.ok v) :
    resourceGitlabInstanceVariableRead get d
      = some ({ d with
                key := v.key
                value := v.value
                variable_type := some v.variable_type
                protected_ := some v.protected_
                masked := some v.masked }, Diagnostics.nil) := by
  simp [resourceGitlabInstanceVariableRead, h]

/-- Witness for C6 at a concrete get oracle and state. -/
theorem read_success_overwrites_fields_witness :
    (fun _ : String => GetResult.ok ⟨"K", "w", "file", true, true⟩)
        (ResourceData.id ⟨"K", "K", "v", none, none, none⟩)
      = GetResult.ok ⟨"K", "w", "file", true, true⟩
    ∧ resourceGitlabInstanceVariableRead
        (fun _ => GetResult.ok ⟨"K", "w", "file", true, true⟩)
        ⟨"K", "K", "v", none, none, none⟩
      = some (⟨"K", "K", "w", some "file", some true, some true⟩,
              Diagnostics.nil) :=
  ⟨rfl, read_success_overwrites_fields
    (fun _ => GetResult.ok ⟨"K", "w", "file", true, true⟩)
    ⟨"K", "K", "v", none, none, none⟩ ⟨"K", "w", "file", true, true⟩ rfl⟩

/-- Claim C7: when the configuration omits variable_type, protected and
masked, Create builds its payload with the schema defaults env_var, false
and false, and those are exactly the defaults the schema declares. -/
theorem create_uses_schema_defaults (d : ResourceData)
    (h1 : d.variable_type = none) (h2 : d.protected_ = none)
    (h3 : d.masked = none) :
    createOptionsOf d
      = { key := d.key, value := d.value, variable_type := "env_var"
          protected_ := false, masked := false }
    ∧ (gitlabInstanceVariableSchema.lookup "variable_type").map SchemaField.dflt
        = some (SchemaDefault.dString "env_var")
    ∧ (gitlabInstanceVariableSchema.lookup "protected").map SchemaField.dflt
        = some (SchemaDefault.dBool false)
    ∧ (gitlabInstanceVariableSchema.lookup "masked").map SchemaField.dflt
        = some (SchemaDefault.dBool false) := by
  refine ⟨?_, rfl, rfl, rfl⟩
  simp [createOptionsOf, stringToVariableType, ResourceData.getKey,
    ResourceData.getValue, ResourceData.getVariableType,
    ResourceData.getProtected, ResourceData.getMasked, h1, h2, h3]

/-- Witness for C7 at a concrete state that omits the three optional
fields. -/
theorem create_uses_schema_defaults_witness :
    (ResourceData.variable_type ⟨"", "K", "v", none, none, none⟩ = none)
    ∧ (ResourceData.protected_ ⟨"", "K", "v", none, none, none⟩ = none)
    ∧ (ResourceData.masked ⟨"", "K", "v", none, none, none⟩ = none)
    ∧ createOptionsOf ⟨"", "K", "v", none, none, none⟩
      = { key := "K", value := "v", variable_type := "env_var"
          protected_ := false, masked := false } :=
  ⟨rfl, rfl, rfl,
    (create_uses_schema_defaults ⟨"", "K", "v", none, none, none⟩
      rfl rfl rfl).1⟩

/-- Claim C8: the import passthrough uses the supplied identifier string
unchanged as the local identity, and a subsequent Read consults the remote
only at that string (two get oracles agreeing there give the same Read
result). -/
theorem import_passthrough_id_is_lookup_key (s : String) (d : ResourceData)
    (get get2 : String → GetResult) (h : get s = get2 s) :
    (importStatePassthrough s d).id = s
    ∧ resourceGitlabInstanceVariableRead get (importStatePassthrough s d)
      = resourceGitlabInstanceVariableRead get2 (importStatePassthrough s d) := by
  refine ⟨rfl, ?_⟩
  simp [resourceGitlabInstanceVariableRead, importStatePassthrough, h]

/-- Witness for C8 at a concrete identifier and pair of agreeing
oracles. -/
theorem import_passthrough_id_is_lookup_key_witness :
    (fun _ : String => GetResult.ok ⟨"K", "v", "env_var", false, false⟩) "K"
      = (fun _ : String => GetResult.ok ⟨"K", "v", "env_var", false, false⟩) "K"
    ∧ (importStatePassthrough "K" ⟨"", "", "", none, none, none⟩).id = "K" :=
  ⟨rfl,
    (import_passthrough_id_is_lookup_key "K" ⟨"", "", "", none, none, none⟩
      (fun _ => GetResult.ok ⟨"K", "v", "env_var", false, false⟩)
      (fun _ => GetResult.ok ⟨"K", "v", "env_var", false, false⟩) rfl).1⟩

/-- Claim C9: when the remote get errors, the error branch reads
`resp.StatusCode` unconditionally, so Read is well-defined exactly when the
transport produced a response: the result is `some` iff the response is
present, and an absent response is the nil-pointer dereference (`none`). -/
theorem read_err_branch_needs_response (get : String → GetResult)
    (d : ResourceData) (e : String) (resp : Option Response)
    (h : get d.id = GetResult.err e resp) :
    ((resourceGitlabInstanceVariableRead get d).isSome ↔ resp.isSome)
    ∧ (resp = none → resourceGitlabInstanceVariableRead get d = none) := by
  constructor
  · cases resp with
    | none => simp [resourceGitlabInstanceVariableRead, h]
    | some r =>
      by_cases h4 : r.statusCode = 404 <;>
        simp [resourceGitlabInstanceVariableRead, h, h4]
  · intro hn
    subst hn
    simp [resourceGitlabInstanceVariableRead, h]

/-- Witness for C9 at a concrete transport failure with no response. -/
theorem read_err_branch_needs_response_witness :
    (fun _ : String => GetResult.err "connection refused" none)
        (ResourceData.id ⟨"K", "K", "v", none, none, none⟩)
      = GetResult.err "connection refused" none
    ∧ resourceGitlabInstanceVariableRead
        (fun _ => GetResult.err "connection refused" none)
        ⟨"K", "K", "v", none, none, none⟩
      = none :=
  ⟨rfl,
    (read_err_branch_needs_response
      (fun _ => GetResult.err "connection refused" none)
      ⟨"K", "K", "v", none, none, none⟩ "connection refused" none rfl).2 rfl⟩

/-- Claim C10: against a well-keyed remote, every operation whose remote
calls succeed preserves the invariant that the local identity equals the
local key field: a fetch-success Read writes the fetched key (equal to the
identity it looked up) into the key field; Create success sets the identity
to the key field and reads back; Update success keys the remote call by the
key field, leaves the identity unchanged and reads back; Delete keys the
removal by the key field and leaves the local state untouched. -/
theorem crud_preserves_id_eq_key (get : String → GetResult)
    (d : ResourceData) (hwk : getWellKeyed get) :
    (∀ v d' diags, get d.id = GetResult.ok v →
      resourceGitlabInstanceVariableRead get d = some (d', diags) →
      d'.id = d'.getKey ∧ d'.id = d.id)
    ∧ (∀ create v d' diags,
      create (createOptionsOf d) = CreateResult.ok →
      get d.getKey = GetResult.ok v →
      resourceGitlabInstanceVariableCreate create get d = some (d', diags) →
      d'.id = d'.getKey ∧ d'.id = d.getKey)
    ∧ (∀ update v d' diags,
      update d.getKey (updateOptionsOf d) = UpdateResult.ok →
      get d.id = GetResult.ok v →
      resourceGitlabInstanceVariableUpdate update get d = some (d', diags) →
      d'.id = d'.getKey ∧ d'.id = d.id)
    ∧ (∀ remove remove2 : String → RemoveResult,
      remove d.getKey = remove2 d.getKey →
      resourceGitlabInstanceVariableDelete remove d
        = resourceGitlabInstanceVariableDelete remove2 d) := by
  have hread : ∀ (d0 : ResourceData) v d' diags, get d0.id = GetResult.ok v →
      resourceGitlabInstanceVariableRead get d0 = some (d', diags) →
      d'.id = d'.getKey ∧ d'.id = d0.id := by
    intro d0 v d' diags hget hr
    have hv : v.key = d0.id := hwk d0.id v hget
    simp [resourceGitlabInstanceVariableRead, hget] at hr
    rw [← hr.1]
    exact ⟨by simp [ResourceData.getKey, hv], rfl⟩
  refine ⟨hread d, ?_, ?_, ?_⟩
  · intro create v d' diags hc hget hr
    rw [resourceGitlabInstanceVariableCreate, hc] at hr
    exact hread { d with id := d.getKey } v d' diags hget hr
  · intro update v d' diags hu hget hr
    rw [resourceGitlabInstanceVariableUpdate, hu] at hr
    exact hread d v d' diags hget hr
  · intro remove remove2 h
    simp [resourceGitlabInstanceVariableDelete, h]

/-- A concrete well-keyed get oracle: echoes the lookup key back as the key
of the returned object. -/
def getOkEcho : String → GetResult :=
  fun k => GetResult.ok ⟨k, "v", "env_var", false, false⟩

/-- `getOkEcho` is well-keyed. -/
theorem getOkEcho_wellKeyed : getWellKeyed getOkEcho := by
  intro k v h
  rw [getOkEcho] at h
  cases h
  rfl

/-- Witness for C10: the Read conjunct at `getOkEcho` and a concrete
state. -/
theorem crud_preserves_id_eq_key_witness :
    getWellKeyed getOkEcho
    ∧ getOkEcho (ResourceData.id ⟨"K", "OLD", "v", none, none, none⟩)
      = GetResult.ok ⟨"K", "v", "env_var", false, false⟩
    ∧ resourceGitlabInstanceVariableRead getOkEcho
        ⟨"K", "OLD", "v", none, none, none⟩
      = some (⟨"K", "K", "v", some "env_var", some false, some false⟩,
              Diagnostics.nil)
    ∧ (ResourceData.id ⟨"K", "K", "v", some "env_var", some false, some false⟩
       = ResourceData.getKey
          ⟨"K", "K", "v", some "env_var", some false, some false⟩) :=
  ⟨getOkEcho_wellKeyed, rfl, rfl,
    ((crud_preserves_id_eq_key getOkEcho
      ⟨"K", "OLD", "v", none, none, none⟩ getOkEcho_wellKeyed).1
      ⟨"K", "v", "env_var", false, false⟩
      ⟨"K", "K", "v", some "env_var", some false, some false⟩
      Diagnostics.nil rfl rfl).1⟩
